import Mathlib

/-!
A shallow embedding of `server/plugin.go` from the `mattermost-plugin-docup`
repository: the `handleCreate` HTTP handler, its configuration record, its
request payload, and the small pieces of the Go standard library it uses
(`strings.Split`, `path.Join`/`path.Clean`, `url.URL.String`).

External collaborators (the Mattermost plugin API, the GitHub client and
`url.Parse`) are modelled as fields of an `Env` record: each fallible call is
a function returning `Option`, where `none` stands for the Go error / nil
result.  The handler itself is a pure function from `Env` and the inbound
HTTP request to a `HandlerResult`: either an HTTP response with a status
code, or a runtime panic (nil-pointer dereference), in both cases together
with an `Effects` record listing every outbound call the handler attempted
and every log line it wrote.
-/

set_option maxRecDepth 100000

namespace Docup

/-- The plugin `configuration` struct: GitHub API key, the three
`owner/repo` strings and the optional comma-separated label list. -/
structure Configuration where
  gitHubAPIKey : String := ""
  adminRepository : String := ""
  developerRepository : String := ""
  handbookRepository : String := ""
  labels : String := ""
  deriving Repr, DecidableEq

/-- The `CreateAPIRequest` JSON payload of `POST /create`. -/
structure CreateAPIRequest where
  type : String
  title : String
  body : String
  postID : String
  deriving Repr, DecidableEq

/-- The part of `model.User` the handler reads. -/
structure User where
  username : String
  deriving Repr, DecidableEq

/-- The fields of `model.Post` the handler reads or writes. -/
structure Post where
  id : String := ""
  userId : String := ""
  channelId : String := ""
  rootId : String := ""
  message : String := ""
  deriving Repr, DecidableEq

/-- The part of the GitHub `Issue` the handler reads (`issue.GetHTMLURL()`). -/
structure Issue where
  htmlURL : String
  deriving Repr, DecidableEq

/-- The `github.IssueRequest` the handler builds: title, body, labels. -/
structure IssueRequest where
  title : String
  body : String
  labels : List String
  deriving Repr, DecidableEq

/-- The components of a `net/url.URL` that the handler uses. -/
structure GoURL where
  scheme : String := ""
  host : String := ""
  path : String := ""
  deriving Repr, DecidableEq

/-- Go `strings.Split` with a one-character separator, on the underlying
character list: splitting the empty string yields `[""]`, and the result
always has one more element than there are separators. -/
def goSplitList (sep : Char) : List Char → List (List Char)
  | [] => [[]]
  | c :: cs =>
    let r := goSplitList sep cs
    if c = sep then [] :: r
    else
      match r with
      | [] => [[c]]
      | g :: gs => (c :: g) :: gs

/-- Go `strings.Split(s, sep)` for a one-character separator (the handler
only splits on `"/"` and `","`). -/
def goSplit (sep : Char) (s : String) : List String :=
  (goSplitList sep s.data).map (fun cs => String.mk cs)

/-- Go `strings.Join(elems, sep)`. -/
def goJoin (sep : String) : List String → String
  | [] => ""
  | [s] => s
  | s :: rest => s ++ sep ++ goJoin sep rest

/-- Whether a path string begins with `/` (Go `path.IsAbs`). -/
def rootedPath (p : String) : Bool :=
  match p.data with
  | c :: _ => c = '/'
  | [] => false

/-- One step of the lexical stack used by Go `path.Clean`: the accumulator is
the list of kept path segments in reverse order. -/
def cleanStep (rooted : Bool) (acc : List String) (s : String) : List String :=
  if s = "" ∨ s = "." then acc
  else if s = ".." then
    match acc with
    | [] => if rooted then [] else [".."]
    | a :: t => if a = ".." then s :: a :: t else t
  else s :: acc

/-- Go `path.Clean`: lexically simplify a slash-separated path, eliding empty
and `.` segments and resolving `..` where possible. -/
def pathClean (p : String) : String :=
  if p = "" then "."
  else
    let rooted := rootedPath p
    let segs := ((goSplit '/' p).foldl (cleanStep rooted) []).reverse
    let out := goJoin "/" segs
    if rooted then "/" ++ out
    else if out = "" then "." else out

/-- Go `path.Join`: drop leading empty elements, join the rest with `/`, then
`Clean` the result; all-empty input gives `""`. -/
def pathJoin (elems : List String) : String :=
  match elems.dropWhile (fun e => e = "") with
  | [] => ""
  | rest => pathClean (goJoin "/" rest)

/-- Go `url.URL.String()` restricted to the scheme/host/path components the
handler can produce (no user info, query, fragment or opaque part). -/
def GoURL.render (u : GoURL) : String :=
  (if u.scheme = "" then "" else u.scheme ++ ":")
    ++ (if u.scheme = "" ∧ u.host = "" then ""
        else (if u.host = "" ∧ u.path = "" then "" else "//") ++ u.host)
    ++ (if u.path ≠ "" ∧ ¬rootedPath u.path ∧ u.host ≠ "" then "/" else "")
    ++ u.path

/-- The handler's external collaborators: the active plugin configuration,
the Mattermost plugin API (`GetUser`, `GetPost`, `CreatePost`), the server
configuration's `ServiceSettings.SiteURL` pointer (`none` = nil), the
standard library `url.Parse` (`none` = parse error, in which case Go returns
a nil `*URL`), and the GitHub client's `Issues.Create`. -/
structure Env where
  config : Configuration
  getUser : String → Option User
  getPost : String → Option Post
  siteURL : Option String
  urlParse : String → Option GoURL
  issuesCreate : String → String → IssueRequest → Option Issue
  createPost : Post → Option Post

/-- The inbound HTTP request: the `Mattermost-User-ID` header (empty string
= absent) and the decoded JSON body (`none` = the decoder returned an
error). -/
structure HTTPRequest where
  userID : String
  body : Option CreateAPIRequest
  deriving Repr, DecidableEq

/-- Every observable action the handler took: log lines written, whether the
plugin configuration was read, and each outbound call attempted (lookups,
the GitHub issue-creation call, the confirmation-post call) together with
the successful results. -/
structure Effects where
  logs : List String := []
  configRead : Bool := false
  userLookups : List String := []
  postLookups : List String := []
  issueCalls : List (String × String × IssueRequest) := []
  issuesCreated : List Issue := []
  postCalls : List Post := []
  postsCreated : List Post := []
  deriving Repr, DecidableEq

/-- The outcome of one request: an HTTP response with a status code (200 for
the implicit empty-body success), or a runtime panic (nil-pointer
dereference), each carrying the effects performed up to that point. -/
inductive HandlerResult where
  | response (status : Nat) (effects : Effects)
  | crashed (effects : Effects)
  deriving Repr, DecidableEq

/-- The effects a result carries. -/
def HandlerResult.effects : HandlerResult → Effects
  | .response _ e => e
  | .crashed e => e

/-- The HTTP status of a result, `none` when the handler panicked. -/
def HandlerResult.status : HandlerResult → Option Nat
  | .response s _ => some s
  | .crashed _ => none

/-- The `switch createRequest.Type` of `handleCreate`: the configured
repository string for the request type, `""` for unrecognized types. -/
def resolveRepo (config : Configuration) (t : String) : String :=
  if t = "admin" then config.adminRepository
  else if t = "developer" then config.developerRepository
  else if t = "handbook" then config.handbookRepository
  else ""

/-- The label-list computation of `handleCreate`: empty configuration gives
`[]`, otherwise `strings.Split` on `","`. -/
def parseLabels (labels : String) : List String :=
  if labels = "" then [] else goSplit ',' labels

/-- The `fmt.Sprintf` template for the GitHub issue body. -/
def issueBodyText (username siteURL requestBody permalink : String) : String :=
  "Mattermost user `" ++ username ++ "` from " ++ siteURL
    ++ " has requested the following be documented:\n\n```\n" ++ requestBody
    ++ "\n```\n\nSee the original post [here](" ++ permalink
    ++ ").\n\n_This issue was generated from [Mattermost](https://mattermost.com) using the [Doc Up](https://github.com/jwilander/mattermost-plugin-docup) plugin._"

/-- The `fmt.Sprintf` template for the confirmation post's message. -/
def confirmationText (permalink issueURL : String) : String :=
  "Marked [this post](" ++ permalink ++ ") for documentation [here](" ++ issueURL
    ++ ").\n\n_Generated by the [Doc Up](https://github.com/jwilander/mattermost-plugin-docup) plugin._"

/-- The final step of `handleCreate` (`server/plugin.go`, lines 161-174):
the confirmation `p.API.CreatePost(post)` call; a failure is logged and
answered with 500, success falls off the end of the handler, which Go
answers with the implicit 200 and an empty body. -/
def confirmStage (env : Env) (post : Post) (e : Effects) : HandlerResult :=
  match env.createPost post with
  | none => .response 500 { e with logs := ["Unable to create post err="] }
  | some created => .response 200 { e with postsCreated := [created] }

/-- Lines 147-166 of `server/plugin.go`: the `github.Issues.Create` call
(logged 500 on error, no retry) followed by the construction of the
confirmation post — same channel as the source message, the computed thread
root, authored as the requesting user, message referencing the permalink and
`issue.GetHTMLURL()`. -/
def issueStage (env : Env) (userID owner repo : String) (issueRequest : IssueRequest)
    (docPost : Post) (rootID permalinkStr : String) (e : Effects) : HandlerResult :=
  let e4 := { e with issueCalls := [(owner, repo, issueRequest)] }
  match env.issuesCreate owner repo issueRequest with
  | none => .response 500 { e4 with logs := ["Error creating GitHub issue err="] }
  | some issue =>
    let post : Post :=
      { userId := userID
        channelId := docPost.channelId
        rootId := rootID
        message := confirmationText permalinkStr issue.htmlURL }
    confirmStage env post { e4 with issuesCreated := [issue], postCalls := [post] }

/-- Lines 132-151 of `server/plugin.go`: the thread-root computation, the
permalink construction — `url.Parse(*serverConfig.ServiceSettings.SiteURL)`
with the error discarded, then `permalink.Path = path.Join(permalink.Path,
"_redirect", "pl", docPost.Id)` — and the `github.IssueRequest` assembly.  A
nil `SiteURL` pointer or a nil `*URL` from a failed parse is dereferenced
unconditionally: the handler panics (`crashed`) instead of answering. -/
def permalinkStage (env : Env) (userID : String) (createRequest : CreateAPIRequest)
    (owner repo : String) (labels : List String) (user : User) (docPost : Post)
    (e : Effects) : HandlerResult :=
  let rootID := if docPost.rootId = "" then docPost.id else docPost.rootId
  match env.siteURL with
  | none => .crashed e
  | some siteURL =>
    match env.urlParse siteURL with
    | none => .crashed e
    | some parsed =>
      let permalink : GoURL :=
        { parsed with path := pathJoin [parsed.path, "_redirect", "pl", docPost.id] }
      let body := issueBodyText user.username siteURL createRequest.body permalink.render
      let issueRequest : IssueRequest :=
        { title := "Request for Documentation: " ++ createRequest.title
          body := body
          labels := labels }
      issueStage env userID owner repo issueRequest docPost rootID permalink.render e

/-- The embedding of `Plugin.handleCreate` (`server/plugin.go`, lines
68-174), step for step in source order: header check, JSON decode,
configuration read, type switch, repository split, label parsing, user
lookup, server-config read, post lookup, then the permalink, issue-creation
and confirmation-post stages above. -/
def handleCreate (env : Env) (req : HTTPRequest) : HandlerResult :=
  if req.userID = "" then
    .response 401 {}
  else
    match req.body with
    | none => .response 500 { logs := ["Unable to decode JSON err="] }
    | some createRequest =>
      let e1 : Effects := { configRead := true }
      let ownerAndRepo := resolveRepo env.config createRequest.type
      if ownerAndRepo = "" then
        .response 400 e1
      else
        let repoSplit := goSplit '/' ownerAndRepo
        if repoSplit.length ≠ 2 then
          .response 500 { e1 with logs := ["Bad configured repo: " ++ ownerAndRepo] }
        else
          let owner := repoSplit.headD ""
          let repo := (repoSplit.drop 1).headD ""
          let labels := parseLabels env.config.labels
          let e2 := { e1 with userLookups := [req.userID] }
          match env.getUser req.userID with
          | none => .response 500 { e2 with logs := ["Unable to get user err="] }
          | some user =>
            let e3 := { e2 with postLookups := [createRequest.postID] }
            match env.getPost createRequest.postID with
            | none => .response 500 { e3 with logs := ["Unable to get post err="] }
            | some docPost =>
              permalinkStage env req.userID createRequest owner repo labels user docPost e3

/-- The concrete environment of the end-to-end scenario: developer
repository `"org/repo"`, user `U1` named `alice`, message `M1` with no
parent in channel `CH1`, site URL `https://chat.example.com`, and a GitHub
client and post-creation call that succeed. -/
def envC1 : Env :=
  { config := { developerRepository := "org/repo" }
    getUser := fun uid => if uid = "U1" then some { username := "alice" } else none
    getPost := fun pid => if pid = "M1" then some { id := "M1", channelId := "CH1" } else none
    siteURL := some "https://chat.example.com"
    urlParse := fun s =>
      if s = "https://chat.example.com" then some { scheme := "https", host := "chat.example.com" }
      else none
    issuesCreate := fun _ _ _ => some { htmlURL := "https://github.com/org/repo/issues/1" }
    createPost := fun p => some p }

/-- The end-to-end scenario's request: identity header `U1` and body
`{"type":"developer","title":"T","body":"B","post_id":"M1"}`. -/
def reqC1 : HTTPRequest :=
  { userID := "U1", body := some { type := "developer", title := "T", body := "B", postID := "M1" } }

/-- The issue-creation request the end-to-end scenario is expected to
produce. -/
def issueReqC1 : IssueRequest :=
  { title := "Request for Documentation: T"
    body := issueBodyText "alice" "https://chat.example.com" "B"
      "https://chat.example.com/_redirect/pl/M1"
    labels := [] }

/-- The confirmation post the end-to-end scenario is expected to create. -/
def postC1 : Post :=
  { userId := "U1", channelId := "CH1", rootId := "M1"
    message := confirmationText "https://chat.example.com/_redirect/pl/M1"
      "https://github.com/org/repo/issues/1" }

/-- The source message of the end-to-end scenario: id `M1`, channel `CH1`,
no parent. -/
def dpC1 : Post := { id := "M1", channelId := "CH1" }

/-- The parse of `https://chat.example.com` the scenario environment
returns. -/
def puC1 : GoURL := { scheme := "https", host := "chat.example.com" }

/-- The scenario environment with the developer repository configured as
`"/repo"`: one `/`, but an empty owner part. -/
def envC5 : Env := { envC1 with config := { developerRepository := "/repo" } }

/-- The scenario environment with the developer repository configured as
`"org/extra/repo"`: two slashes, so the split has three parts. -/
def envBadRepo : Env := { envC1 with config := { developerRepository := "org/extra/repo" } }

/-- The scenario environment where message `M1` has parent `P`. -/
def envC7 : Env :=
  { envC1 with
    getPost := fun pid =>
      if pid = "M1" then some { id := "M1", channelId := "CH1", rootId := "P" } else none }

/-- The source message with parent `P` returned by `envC7`. -/
def dpC7 : Post := { id := "M1", channelId := "CH1", rootId := "P" }

/-- The confirmation post created in the parent-`P` scenario. -/
def postC7 : Post :=
  { userId := "U1", channelId := "CH1", rootId := "P"
    message := confirmationText "https://chat.example.com/_redirect/pl/M1"
      "https://github.com/org/repo/issues/1" }

/-- The scenario environment with labels configured as `"a,b,c"`. -/
def envC6 : Env :=
  { envC1 with config := { developerRepository := "org/repo", labels := "a,b,c" } }

/-- The issue-creation request produced in the `"a,b,c"`-labels scenario. -/
def issueReqC6 : IssueRequest :=
  { title := "Request for Documentation: T"
    body := issueBodyText "alice" "https://chat.example.com" "B"
      "https://chat.example.com/_redirect/pl/M1"
    labels := ["a", "b", "c"] }

/-- The scenario environment whose server configuration has a nil
`ServiceSettings.SiteURL` pointer. -/
def envNoSite : Env := { envC1 with siteURL := none }

/-- The scenario environment where `url.Parse` fails on every input. -/
def envBadURL : Env := { envC1 with urlParse := fun _ => none }

/-- An authenticated request whose JSON body the decoder rejects. -/
def reqNoBody : HTTPRequest := { userID := "U1", body := none }

/-- The facts about a handler result's outbound calls used for claim C2:
a confirmation-post call implies a successful issue-creation call, the
lookups are exactly the given ones, and no call is attempted twice. -/
def CallFacts (env : Env) (owner repo : String) (uL pL : List String)
    (r : HandlerResult) : Prop :=
  (r.effects.postCalls ≠ [] →
    ∃ ir i, r.effects.issueCalls = [(owner, repo, ir)] ∧
      env.issuesCreate owner repo ir = some i) ∧
  r.effects.userLookups = uL ∧
  r.effects.postLookups = pL ∧
  r.effects.issueCalls.length ≤ 1 ∧
  r.effects.postCalls.length ≤ 1

/-- Claim C1: in the end-to-end scenario (identity header `U1`, body
`{"type":"developer","title":"T","body":"B","post_id":"M1"}`, developer
repository `"org/repo"`, message `M1` with no parent, site base URL
`https://chat.example.com`), `handleCreate` makes exactly one issue-creation
call, in owner `"org"` and repo `"repo"` with title
`"Request for Documentation: T"`, the issue is created, exactly one
confirmation post is created in `M1`'s channel with `RootId = M1` whose
message contains the permalink `https://chat.example.com/_redirect/pl/M1`
and the created issue's URL, and the HTTP response status is 200. -/
theorem end_to_end_scenario :
    (handleCreate envC1 reqC1).status = some 200 ∧
    (∃ ir : IssueRequest,
      (handleCreate envC1 reqC1).effects.issueCalls = [("org", "repo", ir)] ∧
      ir.title = "Request for Documentation: T") ∧
    (handleCreate envC1 reqC1).effects.issuesCreated.length = 1 ∧
    (handleCreate envC1 reqC1).effects.postCalls.length = 1 ∧
    (∃ p : Post,
      (handleCreate envC1 reqC1).effects.postsCreated = [p] ∧
      p.channelId = "CH1" ∧ p.rootId = "M1" ∧
      (∃ s t, p.message = s ++ "https://chat.example.com/_redirect/pl/M1" ++ t) ∧
      (∃ s t, p.message = s ++ "https://github.com/org/repo/issues/1" ++ t)) := by
  refine ⟨by decide, ⟨issueReqC1, by decide, by decide⟩, by decide, by decide,
    ⟨postC1, by decide, by decide, by decide,
      ⟨⟨"Marked [this post](",
        ") for documentation [here](https://github.com/org/repo/issues/1).\n\n_Generated by the [Doc Up](https://github.com/jwilander/mattermost-plugin-docup) plugin._",
        by decide⟩,
       ⟨"Marked [this post](https://chat.example.com/_redirect/pl/M1) for documentation [here](",
        ").\n\n_Generated by the [Doc Up](https://github.com/jwilander/mattermost-plugin-docup) plugin._",
        by decide⟩⟩⟩⟩

/-- Claim C3: a request with an empty `Mattermost-User-ID` header is
answered with status 401, and nothing else happens: the plugin
configuration is not read, no lookup is attempted, no issue-creation call
and no post-creation call is made, and nothing is logged. -/
theorem missing_header_unauthorized (env : Env) (req : HTTPRequest)
    (h : req.userID = "") :
    (handleCreate env req).status = some 401 ∧
    (handleCreate env req).effects.configRead = false ∧
    (handleCreate env req).effects.userLookups = [] ∧
    (handleCreate env req).effects.postLookups = [] ∧
    (handleCreate env req).effects.issueCalls = [] ∧
    (handleCreate env req).effects.issuesCreated = [] ∧
    (handleCreate env req).effects.postCalls = [] ∧
    (handleCreate env req).effects.postsCreated = [] ∧
    (handleCreate env req).effects.logs = [] := by
  simp [handleCreate, h, HandlerResult.status, HandlerResult.effects]

/-- Witness for C3 at the concrete input: header absent, arbitrary body. -/
theorem missing_header_unauthorized_witness :
    (handleCreate envC1 { userID := "", body := none }).status = some 401 ∧
    (handleCreate envC1 { userID := "", body := none }).effects.configRead = false ∧
    (handleCreate envC1 { userID := "", body := none }).effects.userLookups = [] ∧
    (handleCreate envC1 { userID := "", body := none }).effects.postLookups = [] ∧
    (handleCreate envC1 { userID := "", body := none }).effects.issueCalls = [] ∧
    (handleCreate envC1 { userID := "", body := none }).effects.issuesCreated = [] ∧
    (handleCreate envC1 { userID := "", body := none }).effects.postCalls = [] ∧
    (handleCreate envC1 { userID := "", body := none }).effects.postsCreated = [] ∧
    (handleCreate envC1 { userID := "", body := none }).effects.logs = [] :=
  missing_header_unauthorized envC1 { userID := "", body := none } rfl

/-- A type outside `{admin, developer, handbook}` resolves to the empty
repository string, whatever the configuration. -/
theorem resolveRepo_of_unknown_type (config : Configuration) (t : String)
    (h : t ∉ (["admin", "developer", "handbook"] : List String)) :
    resolveRepo config t = "" := by
  simp only [List.mem_cons, List.mem_singleton, not_or] at h
  simp [resolveRepo, h.1, h.2.1, h.2.2]

/-- Claim C4: an authenticated, well-formed request whose type is outside
`{admin, developer, handbook}`, or whose type maps to an empty configured
repository string, is answered with status 400, and no issue-creation call
and no post-creation call is made. -/
theorem unresolved_type_bad_request (env : Env) (req : HTTPRequest)
    (b : CreateAPIRequest) (hu : req.userID ≠ "") (hb : req.body = some b)
    (hr : b.type ∉ (["admin", "developer", "handbook"] : List String) ∨
      resolveRepo env.config b.type = "") :
    (handleCreate env req).status = some 400 ∧
    (handleCreate env req).effects.issueCalls = [] ∧
    (handleCreate env req).effects.issuesCreated = [] ∧
    (handleCreate env req).effects.postCalls = [] ∧
    (handleCreate env req).effects.postsCreated = [] := by
  have hempty : resolveRepo env.config b.type = "" := by
    rcases hr with hr | hr
    · exact resolveRepo_of_unknown_type env.config b.type hr
    · exact hr
  simp [handleCreate, hu, hb, hempty, HandlerResult.status, HandlerResult.effects]

/-- Witness for C4 at the concrete input: type `"bogus"`. -/
theorem unresolved_type_bad_request_witness :
    (handleCreate envC1 { userID := "U1", body := some { type := "bogus", title := "T", body := "B", postID := "M1" } }).status = some 400 ∧
    (handleCreate envC1 { userID := "U1", body := some { type := "bogus", title := "T", body := "B", postID := "M1" } }).effects.issueCalls = [] ∧
    (handleCreate envC1 { userID := "U1", body := some { type := "bogus", title := "T", body := "B", postID := "M1" } }).effects.issuesCreated = [] ∧
    (handleCreate envC1 { userID := "U1", body := some { type := "bogus", title := "T", body := "B", postID := "M1" } }).effects.postCalls = [] ∧
    (handleCreate envC1 { userID := "U1", body := some { type := "bogus", title := "T", body := "B", postID := "M1" } }).effects.postsCreated = [] :=
  unresolved_type_bad_request envC1 _ _ (by decide) rfl (Or.inl (by decide))

/-- Helper: the issue stage records exactly one issue-creation call, with
the given owner, repo and request. -/
theorem issueStage_issueCalls (env : Env) (uid owner repo : String) (irq : IssueRequest)
    (docPost : Post) (rid pl : String) (e : Effects) :
    (issueStage env uid owner repo irq docPost rid pl e).effects.issueCalls
      = [(owner, repo, irq)] := by
  unfold issueStage confirmStage
  split
  · simp [HandlerResult.effects]
  · dsimp only
    split <;> simp [HandlerResult.effects]

/-- Helper: the issue stage never panics: its result is always an HTTP
response. -/
theorem issueStage_status_ne_none (env : Env) (uid owner repo : String)
    (irq : IssueRequest) (docPost : Post) (rid pl : String) (e : Effects) :
    (issueStage env uid owner repo irq docPost rid pl e).status ≠ none := by
  unfold issueStage confirmStage
  split
  · simp [HandlerResult.status]
  · dsimp only
    split <;> simp [HandlerResult.status]

/-- Helper: when both the GitHub call and the post creation succeed, the
issue stage answers 200. -/
theorem issueStage_status_success (env : Env) (uid owner repo : String)
    (irq : IssueRequest) (docPost : Post) (rid pl : String) (e : Effects)
    (hic : env.issuesCreate owner repo irq ≠ none)
    (hcp : ∀ p, env.createPost p ≠ none) :
    (issueStage env uid owner repo irq docPost rid pl e).status = some 200 := by
  unfold issueStage confirmStage
  split
  · next heq => exact absurd heq hic
  · dsimp only
    split
    · next heq => exact absurd heq (hcp _)
    · simp [HandlerResult.status]

/-- Helper: `CallFacts` for the issue stage. -/
theorem issueStage_calls (env : Env) (uid owner repo : String) (irq : IssueRequest)
    (docPost : Post) (rid pl : String) (e : Effects) (hep : e.postCalls = []) :
    CallFacts env owner repo e.userLookups e.postLookups
      (issueStage env uid owner repo irq docPost rid pl e) := by
  unfold CallFacts issueStage confirmStage
  split
  · simp_all [HandlerResult.effects]
  · dsimp only
    split <;> simp_all [HandlerResult.effects]

/-- Helper: every confirmation-post call recorded by the issue stage is the
post built from the created issue: authored by the requesting user, in the
source message's channel, threaded at the computed root. -/
theorem issueStage_postCalls (env : Env) (uid owner repo : String) (irq : IssueRequest)
    (docPost : Post) (rid pl : String) (e : Effects) (hep : e.postCalls = [])
    (p : Post) (hp : p ∈ (issueStage env uid owner repo irq docPost rid pl e).effects.postCalls) :
    ∃ i, env.issuesCreate owner repo irq = some i ∧
      p = { userId := uid, channelId := docPost.channelId, rootId := rid
            message := confirmationText pl i.htmlURL } := by
  unfold issueStage confirmStage at hp
  split at hp
  · simp_all [HandlerResult.effects]
  · dsimp only at hp
    split at hp <;> simp_all [HandlerResult.effects]

/-- Helper: `CallFacts` for the permalink stage. -/
theorem permalinkStage_calls (env : Env) (uid : String) (cr : CreateAPIRequest)
    (owner repo : String) (labels : List String) (user : User) (docPost : Post)
    (e : Effects) (hei : e.issueCalls = []) (hep : e.postCalls = []) :
    CallFacts env owner repo e.userLookups e.postLookups
      (permalinkStage env uid cr owner repo labels user docPost e) := by
  simp only [permalinkStage]
  split
  · simp_all [CallFacts, HandlerResult.effects]
  split
  · simp_all [CallFacts, HandlerResult.effects]
  exact issueStage_calls env uid owner repo _ docPost _ _ e hep

/-- Helper: every issue-creation call recorded by the permalink stage goes
to the given owner and repo and carries the title, labels and templated body
built from the request, the user, the site URL and the permalink. -/
theorem permalinkStage_issueCalls (env : Env) (uid : String) (cr : CreateAPIRequest)
    (owner repo : String) (labels : List String) (user : User) (docPost : Post)
    (e : Effects) (hei : e.issueCalls = []) (o r : String) (ir : IssueRequest)
    (hmem : (o, r, ir) ∈
      (permalinkStage env uid cr owner repo labels user docPost e).effects.issueCalls) :
    o = owner ∧ r = repo ∧
    ir.title = "Request for Documentation: " ++ cr.title ∧
    ir.labels = labels ∧
    ∃ su pu, env.siteURL = some su ∧ env.urlParse su = some pu ∧
      ir.body = issueBodyText user.username su cr.body
        (GoURL.render { pu with path := pathJoin [pu.path, "_redirect", "pl", docPost.id] }) := by
  simp only [permalinkStage] at hmem
  split at hmem
  · simp_all [HandlerResult.effects]
  split at hmem
  · simp_all [HandlerResult.effects]
  rw [issueStage_issueCalls] at hmem
  simp only [List.mem_singleton, Prod.mk.injEq] at hmem
  obtain ⟨ho, hr2, hir⟩ := hmem
  subst ho
  subst hr2
  subst hir
  exact ⟨rfl, rfl, rfl, rfl, _, _, by assumption, by assumption, rfl⟩

/-- Helper: every confirmation-post call recorded by the permalink stage is
authored by the requesting user, targets the source message's channel, and
is threaded at the source message's own id when it has no parent and at its
parent otherwise. -/
theorem permalinkStage_postCalls (env : Env) (uid : String) (cr : CreateAPIRequest)
    (owner repo : String) (labels : List String) (user : User) (docPost : Post)
    (e : Effects) (hep : e.postCalls = []) (p : Post)
    (hp : p ∈ (permalinkStage env uid cr owner repo labels user docPost e).effects.postCalls) :
    p.userId = uid ∧ p.channelId = docPost.channelId ∧
    p.rootId = (if docPost.rootId = "" then docPost.id else docPost.rootId) := by
  simp only [permalinkStage] at hp
  split at hp
  · simp_all [HandlerResult.effects]
  split at hp
  · simp_all [HandlerResult.effects]
  obtain ⟨i, hi, hpe⟩ := issueStage_postCalls env uid owner repo _ docPost _ _ e hep p hp
  subst hpe
  exact ⟨rfl, rfl, rfl⟩

/-- Helper: when the site URL is present and parses and both outbound
creation calls succeed, the permalink stage answers 200. -/
theorem permalinkStage_status_success (env : Env) (uid : String) (cr : CreateAPIRequest)
    (owner repo : String) (labels : List String) (user : User) (docPost : Post)
    (e : Effects) (su : String) (pu : GoURL)
    (hsu : env.siteURL = some su) (hpu : env.urlParse su = some pu)
    (hic : ∀ o r ir, env.issuesCreate o r ir ≠ none)
    (hcp : ∀ p, env.createPost p ≠ none) :
    (permalinkStage env uid cr owner repo labels user docPost e).status = some 200 := by
  simp only [permalinkStage, hsu, hpu]
  exact issueStage_status_success env uid owner repo _ docPost _ _ e (hic _ _ _) hcp

/-- Claim C2: for every environment and request, the GitHub issue-creation
call is only made after the user lookup and the source-message lookup both
succeeded, the confirmation post is only attempted after the issue-creation
call succeeded, and no outbound step is attempted more than once. -/
theorem no_partial_side_effects (env : Env) (req : HTTPRequest) :
    ((handleCreate env req).effects.issueCalls ≠ [] →
      (∃ u, env.getUser req.userID = some u) ∧
      (∃ b dp, req.body = some b ∧ env.getPost b.postID = some dp)) ∧
    ((handleCreate env req).effects.postCalls ≠ [] →
      ∃ o r ir i, (handleCreate env req).effects.issueCalls = [(o, r, ir)] ∧
        env.issuesCreate o r ir = some i) ∧
    (handleCreate env req).effects.userLookups.length ≤ 1 ∧
    (handleCreate env req).effects.postLookups.length ≤ 1 ∧
    (handleCreate env req).effects.issueCalls.length ≤ 1 ∧
    (handleCreate env req).effects.postCalls.length ≤ 1 := by
  by_cases hu : req.userID = ""
  · simp [handleCreate, hu, HandlerResult.effects]
  rcases hb : req.body with _ | cr
  · simp [handleCreate, hu, hb, HandlerResult.effects]
  by_cases hr : resolveRepo env.config cr.type = ""
  · simp [handleCreate, hu, hb, hr, HandlerResult.effects]
  by_cases hs : (goSplit '/' (resolveRepo env.config cr.type)).length = 2
  case neg => simp [handleCreate, hu, hb, hr, hs, HandlerResult.effects]
  rcases hgu : env.getUser req.userID with _ | u
  · simp [handleCreate, hu, hb, hr, hs, hgu, HandlerResult.effects]
  rcases hdp : env.getPost cr.postID with _ | dp
  · simp [handleCreate, hu, hb, hr, hs, hgu, hdp, HandlerResult.effects]
  have hc : CallFacts env ((goSplit '/' (resolveRepo env.config cr.type)).headD "")
      (((goSplit '/' (resolveRepo env.config cr.type)).drop 1).headD "")
      [req.userID] [cr.postID] (handleCreate env req) := by
    simp only [handleCreate, hu, hb, hr, hs, hgu, hdp, if_neg, ite_not]
    exact permalinkStage_calls env req.userID cr _ _ _ u dp _ rfl rfl
  obtain ⟨hpost, hul, hpl, hil, hpll⟩ := hc
  refine ⟨fun _ => ⟨⟨u, rfl⟩, cr, dp, rfl, hdp⟩, fun hne => ?_, ?_, ?_, hil, hpll⟩
  · obtain ⟨ir, i, hi1, hi2⟩ := hpost hne
    exact ⟨_, _, ir, i, hi1, hi2⟩
  · rw [hul]; simp
  · rw [hpl]; simp

/-- Witness for C2 in the end-to-end scenario: the lookups succeeded and the
issue-creation call of the recorded confirmation post succeeded. -/
theorem no_partial_side_effects_witness :
    (∃ u, envC1.getUser reqC1.userID = some u) ∧
    (∃ o r ir i, (handleCreate envC1 reqC1).effects.issueCalls = [(o, r, ir)] ∧
      envC1.issuesCreate o r ir = some i) := by
  obtain ⟨h1, h2, _⟩ := no_partial_side_effects envC1 reqC1
  exact ⟨(h1 (by decide)).1, h2 (by decide)⟩

/-- Claim C5: a repository configuration string that does not split on `/`
into exactly two parts is logged and answered with 500 and no issue call is
made; a string splitting into two parts is accepted even with an empty
part: `"/repo"` proceeds to an issue-creation call with owner `""` and repo
`"repo"`. -/
theorem bad_repo_config_rejected :
    (∀ (env : Env) (req : HTTPRequest) (b : CreateAPIRequest),
      req.userID ≠ "" → req.body = some b →
      resolveRepo env.config b.type ≠ "" →
      (goSplit '/' (resolveRepo env.config b.type)).length ≠ 2 →
      (handleCreate env req).status = some 500 ∧
      ("Bad configured repo: " ++ resolveRepo env.config b.type)
        ∈ (handleCreate env req).effects.logs ∧
      (handleCreate env req).effects.issueCalls = [] ∧
      (handleCreate env req).effects.issuesCreated = []) ∧
    (goSplit '/' "/repo").length = 2 ∧
    ((handleCreate envC5 reqC1).status = some 200 ∧
      (handleCreate envC5 reqC1).effects.issueCalls = [("", "repo", issueReqC1)]) := by
  refine ⟨?_, by decide, by decide, by decide⟩
  intro env req b hu hb hr hs
  simp [handleCreate, hu, hb, hr, hs, HandlerResult.status, HandlerResult.effects]

/-- Witness for C5 at the concrete input `"org/extra/repo"`. -/
theorem bad_repo_config_rejected_witness :
    (handleCreate envBadRepo reqC1).status = some 500 ∧
    ("Bad configured repo: " ++ resolveRepo envBadRepo.config "developer")
      ∈ (handleCreate envBadRepo reqC1).effects.logs ∧
    (handleCreate envBadRepo reqC1).effects.issueCalls = [] ∧
    (handleCreate envBadRepo reqC1).effects.issuesCreated = [] :=
  bad_repo_config_rejected.1 envBadRepo reqC1
    { type := "developer", title := "T", body := "B", postID := "M1" }
    (by decide) rfl (by decide) (by decide)

/-- Claim C6: every issue-creation call the handler makes carries exactly
the label list parsed from the configuration, and that parse maps `"a,b,c"`
to `["a","b","c"]` and the empty configuration to `[]`. -/
theorem labels_from_config :
    (∀ (env : Env) (req : HTTPRequest) (o r : String) (ir : IssueRequest),
      (o, r, ir) ∈ (handleCreate env req).effects.issueCalls →
      ir.labels = parseLabels env.config.labels) ∧
    parseLabels "a,b,c" = ["a", "b", "c"] ∧
    parseLabels "" = [] := by
  refine ⟨?_, by decide, by decide⟩
  intro env req o r ir hmem
  by_cases hu : req.userID = ""
  · simp [handleCreate, hu, HandlerResult.effects] at hmem
  rcases hb : req.body with _ | cr
  · simp [handleCreate, hu, hb, HandlerResult.effects] at hmem
  by_cases hr : resolveRepo env.config cr.type = ""
  · simp [handleCreate, hu, hb, hr, HandlerResult.effects] at hmem
  by_cases hs : (goSplit '/' (resolveRepo env.config cr.type)).length = 2
  case neg => simp [handleCreate, hu, hb, hr, hs, HandlerResult.effects] at hmem
  rcases hgu : env.getUser req.userID with _ | u
  · simp [handleCreate, hu, hb, hr, hs, hgu, HandlerResult.effects] at hmem
  rcases hdp : env.getPost cr.postID with _ | dp
  · simp [handleCreate, hu, hb, hr, hs, hgu, hdp, HandlerResult.effects] at hmem
  simp only [handleCreate, hu, hb, hr, hs, hgu, hdp, if_neg, ite_not] at hmem
  exact (permalinkStage_issueCalls env req.userID cr _ _ _ u dp _ rfl o r ir hmem).2.2.2.1

/-- Witness for C6: in the `"a,b,c"`-labels scenario the issue call carries
`["a","b","c"]`. -/
theorem labels_from_config_witness :
    issueReqC6.labels = parseLabels envC6.config.labels :=
  labels_from_config.1 envC6 reqC1 "org" "repo" issueReqC6 (by decide)

/-- Claim C7: every confirmation post the handler attempts is threaded at
the source message's own id when the source message has no parent, and at
its parent id otherwise. -/
theorem confirmation_thread_root (env : Env) (req : HTTPRequest)
    (b : CreateAPIRequest) (dp : Post) (p : Post)
    (hb : req.body = some b) (hdp : env.getPost b.postID = some dp)
    (hp : p ∈ (handleCreate env req).effects.postCalls) :
    (dp.rootId = "" → p.rootId = dp.id) ∧
    (dp.rootId ≠ "" → p.rootId = dp.rootId) := by
  by_cases hu : req.userID = ""
  · simp [handleCreate, hu, HandlerResult.effects] at hp
  by_cases hr : resolveRepo env.config b.type = ""
  · simp [handleCreate, hu, hb, hr, HandlerResult.effects] at hp
  by_cases hs : (goSplit '/' (resolveRepo env.config b.type)).length = 2
  case neg => simp [handleCreate, hu, hb, hr, hs, HandlerResult.effects] at hp
  rcases hgu : env.getUser req.userID with _ | u
  · simp [handleCreate, hu, hb, hr, hs, hgu, HandlerResult.effects] at hp
  simp only [handleCreate, hu, hb, hr, hs, hgu, hdp, if_neg, ite_not] at hp
  obtain ⟨_, _, h3⟩ := permalinkStage_postCalls env req.userID b _ _ _ u dp _ rfl p hp
  exact ⟨fun h0 => by rw [h3, if_pos h0], fun h0 => by rw [h3, if_neg h0]⟩

/-- Witness for C7 in both scenarios: no parent (root becomes `M1` itself)
and parent `P` (root becomes `P`). -/
theorem confirmation_thread_root_witness :
    postC1.rootId = dpC1.id ∧ postC7.rootId = dpC7.rootId := by
  constructor
  · exact (confirmation_thread_root envC1 reqC1
      { type := "developer", title := "T", body := "B", postID := "M1" }
      dpC1 postC1 rfl rfl (by decide)).1 rfl
  · exact (confirmation_thread_root envC7 reqC1
      { type := "developer", title := "T", body := "B", postID := "M1" }
      dpC7 postC7 rfl rfl (by decide)).2 (by decide)

/-- Claim C8: an authenticated request whose body the decoder rejects is
logged and answered with 500 before any outbound call; when the decoder
accepts the body and every subsequent step succeeds, the handler answers
200. -/
theorem decode_failure_and_success_status :
    (∀ (env : Env) (req : HTTPRequest), req.userID ≠ "" → req.body = none →
      (handleCreate env req).status = some 500 ∧
      "Unable to decode JSON err=" ∈ (handleCreate env req).effects.logs ∧
      (handleCreate env req).effects.issueCalls = [] ∧
      (handleCreate env req).effects.postCalls = []) ∧
    (∀ (env : Env) (req : HTTPRequest) (b : CreateAPIRequest) (u : User) (dp : Post)
       (su : String) (pu : GoURL),
      req.userID ≠ "" → req.body = some b →
      resolveRepo env.config b.type ≠ "" →
      (goSplit '/' (resolveRepo env.config b.type)).length = 2 →
      env.getUser req.userID = some u →
      env.getPost b.postID = some dp →
      env.siteURL = some su →
      env.urlParse su = some pu →
      (∀ o r ir, env.issuesCreate o r ir ≠ none) →
      (∀ p, env.createPost p ≠ none) →
      (handleCreate env req).status = some 200) := by
  constructor
  · intro env req hu hb
    simp [handleCreate, hu, hb, HandlerResult.status, HandlerResult.effects]
  · intro env req b u dp su pu hu hb hr hs hgu hdp hsu hpu hic hcp
    simp only [handleCreate, hu, hb, hr, hs, hgu, hdp, if_neg, ite_not]
    exact permalinkStage_status_success env req.userID b _ _ _ u dp _ su pu hsu hpu hic hcp

/-- Witness for C8: malformed body answered 500 with the decode log; the
all-success end-to-end scenario answered 200. -/
theorem decode_failure_and_success_status_witness :
    ((handleCreate envC1 reqNoBody).status = some 500 ∧
      "Unable to decode JSON err=" ∈ (handleCreate envC1 reqNoBody).effects.logs ∧
      (handleCreate envC1 reqNoBody).effects.issueCalls = [] ∧
      (handleCreate envC1 reqNoBody).effects.postCalls = []) ∧
    (handleCreate envC1 reqC1).status = some 200 := by
  constructor
  · exact decode_failure_and_success_status.1 envC1 reqNoBody (by decide) rfl
  · exact decode_failure_and_success_status.2 envC1 reqC1
      { type := "developer", title := "T", body := "B", postID := "M1" }
      { username := "alice" } dpC1 "https://chat.example.com" puC1
      (by decide) rfl (by decide) (by decide) rfl rfl rfl rfl
      (fun o r ir => by simp [envC1]) (fun p => by simp [envC1])

/-- Claim C9: every issue the handler asks GitHub to create has as body the
fixed template instantiated with exactly the requesting user's name, the
configured site URL, the request's body verbatim, and the permalink built
from the parsed site URL and the source message id (the template's literal
block and attribution footer are part of `issueBodyText`). -/
theorem issue_body_composition (env : Env) (req : HTTPRequest) (b : CreateAPIRequest)
    (u : User) (dp : Post) (su : String) (pu : GoURL) (o r : String) (ir : IssueRequest)
    (hb : req.body = some b) (hgu : env.getUser req.userID = some u)
    (hdp : env.getPost b.postID = some dp) (hsu : env.siteURL = some su)
    (hpu : env.urlParse su = some pu)
    (hmem : (o, r, ir) ∈ (handleCreate env req).effects.issueCalls) :
    ir.body = issueBodyText u.username su b.body
      (GoURL.render { pu with path := pathJoin [pu.path, "_redirect", "pl", dp.id] }) := by
  by_cases hu : req.userID = ""
  · simp [handleCreate, hu, HandlerResult.effects] at hmem
  by_cases hr : resolveRepo env.config b.type = ""
  · simp [handleCreate, hu, hb, hr, HandlerResult.effects] at hmem
  by_cases hs : (goSplit '/' (resolveRepo env.config b.type)).length = 2
  case neg => simp [handleCreate, hu, hb, hr, hs, HandlerResult.effects] at hmem
  simp only [handleCreate, hu, hb, hr, hs, hgu, hdp, if_neg, ite_not] at hmem
  obtain ⟨-, -, -, -, su2, pu2, hsu2, hpu2, hbody⟩ :=
    permalinkStage_issueCalls env req.userID b _ _ _ u dp _ rfl o r ir hmem
  rw [hsu] at hsu2
  injection hsu2 with hsu3
  subst hsu3
  rw [hpu] at hpu2
  injection hpu2 with hpu3
  subst hpu3
  exact hbody

/-- Witness for C9 in the end-to-end scenario. -/
theorem issue_body_composition_witness :
    issueReqC1.body = issueBodyText "alice" "https://chat.example.com" "B"
      (GoURL.render { puC1 with path := pathJoin [puC1.path, "_redirect", "pl", dpC1.id] }) :=
  issue_body_composition envC1 reqC1
    { type := "developer", title := "T", body := "B", postID := "M1" }
    { username := "alice" } dpC1 "https://chat.example.com" puC1 "org" "repo" issueReqC1
    rfl rfl rfl rfl rfl (by decide)

/-- Claim C10: once a request reaches the permalink step, that step can
never produce an HTTP error response: a nil `SiteURL` pointer or a failed
`url.Parse` makes the handler panic (no response at all), and otherwise
processing always goes on to the issue-creation call. -/
theorem permalink_never_http_error (env : Env) (req : HTTPRequest) (b : CreateAPIRequest)
    (u : User) (dp : Post)
    (hu : req.userID ≠ "") (hb : req.body = some b)
    (hr : resolveRepo env.config b.type ≠ "")
    (hs : (goSplit '/' (resolveRepo env.config b.type)).length = 2)
    (hgu : env.getUser req.userID = some u)
    (hdp : env.getPost b.postID = some dp) :
    (env.siteURL = none → (handleCreate env req).status = none) ∧
    (∀ su, env.siteURL = some su → env.urlParse su = none →
      (handleCreate env req).status = none) ∧
    (∀ su pu, env.siteURL = some su → env.urlParse su = some pu →
      (handleCreate env req).status ≠ none ∧
      (handleCreate env req).effects.issueCalls ≠ []) := by
  refine ⟨fun hn => ?_, fun su hsu hpn => ?_, fun su pu hsu hpu => ?_⟩
  · simp [handleCreate, hu, hb, hr, hs, hgu, hdp, permalinkStage, hn, HandlerResult.status]
  · simp [handleCreate, hu, hb, hr, hs, hgu, hdp, permalinkStage, hsu, hpn, HandlerResult.status]
  · simp only [handleCreate, hu, hb, hr, hs, hgu, hdp, if_neg, ite_not, reduceIte]
    constructor
    · simp only [permalinkStage, hsu, hpu]
      exact issueStage_status_ne_none env req.userID _ _ _ dp _ _ _
    · simp only [permalinkStage, hsu, hpu]
      rw [issueStage_issueCalls]
      simp

/-- Witness for C10: a nil site URL panics, a failing `url.Parse` panics,
and the end-to-end scenario reaches the issue-creation call. -/
theorem permalink_never_http_error_witness :
    (handleCreate envNoSite reqC1).status = none ∧
    (handleCreate envBadURL reqC1).status = none ∧
    (handleCreate envC1 reqC1).status ≠ none ∧
    (handleCreate envC1 reqC1).effects.issueCalls ≠ [] := by
  refine ⟨?_, ?_, ?_⟩
  · exact (permalink_never_http_error envNoSite reqC1
      { type := "developer", title := "T", body := "B", postID := "M1" }
      { username := "alice" } dpC1 (by decide) rfl (by decide) (by decide) rfl rfl).1 rfl
  · exact (permalink_never_http_error envBadURL reqC1
      { type := "developer", title := "T", body := "B", postID := "M1" }
      { username := "alice" } dpC1 (by decide) rfl (by decide) (by decide) rfl rfl).2.1
      "https://chat.example.com" rfl rfl
  · exact (permalink_never_http_error envC1 reqC1
      { type := "developer", title := "T", body := "B", postID := "M1" }
      { username := "alice" } dpC1 (by decide) rfl (by decide) (by decide) rfl rfl).2.2
      "https://chat.example.com" puC1 rfl rfl

end Docup
